import Mathlib

/-!
Verification development for the solana-signal repository.

The repository contains several near-duplicate Express server variants:
- `src/server.js`                  (v4: `fetchLimited`, `upsertToken`, `pollSources`)
- `src/unnamed/part_000`           (v5.1: `pollDEX` over `SOURCES.raydium`)
- `src/unnamed/part_001`           (v2: `/liquidity-check` with `Object.keys` counting)
- `src/unnamed/part_002`           (minimal FCM server, no core logic)
- `src/unnamed/part_003`           (v5.3.4 `pollOnce` + v5 backend: win-rate MVP,
                                    `upsertPair`, `fetchWalletSwaps`, `/wallets/stats`)
- `src/unnamed/part_004`           (v5.3.2 `pollOnce` + v5.3 `pollDEX`)

Network effects are modelled by passing each fetch's outcome (`Option JVal`,
`some` = the `ok = true` branch of `safeFetch`/`fetchJSON` carrying the parsed
JSON body, `none` = any failure branch) as an explicit argument.  JS numbers
are modelled as exact integers / naturals; timestamps are milliseconds as `Nat`.
-/

/-- JSON-ish JavaScript value, as produced by `res.json()` in the sources. -/
inductive JVal where
  | null
  | bool (b : Bool)
  | num (n : Int)
  | str (s : String)
  | arr (xs : List JVal)
  | obj (fields : List (String × JVal))

/-- Property lookup on an object's field list (objects from `JSON.parse` have
unique keys; lookup returns the first binding). -/
def getField : List (String × JVal) → String → Option JVal
  | [], _ => none
  | (k, v) :: rest, key => if k = key then some v else getField rest key

/-- JavaScript optional-chained property access `v?.key`: a field of an object,
`undefined` (here `none`) on every non-object. -/
def jsGet : JVal → String → Option JVal
  | JVal.obj fs, key => getField fs key
  | _, _ => none

/-- JavaScript truthiness of a parsed JSON value: `null`, `false`, `0` and the
empty string are falsy; every array and object is truthy. -/
def jsTruthy : JVal → Bool
  | JVal.null => false
  | JVal.bool b => b
  | JVal.num n => n != 0
  | JVal.str s => s ≠ ""
  | JVal.arr _ => true
  | JVal.obj _ => true

/-- JavaScript property read `x.length` on a parsed JSON value: an array
exposes its element count and a string its character count; an object exposes
its own `"length"` field when present; every other read gives `undefined`
(`none`). -/
def jsLengthProp : JVal → Option JVal
  | JVal.arr xs => some (JVal.num xs.length)
  | JVal.str s => some (JVal.num s.length)
  | JVal.obj fs => getField fs "length"
  | _ => none

/-- JavaScript `x?.length || 0` as the value it evaluates to: the length read
when that read is defined and truthy, the number `0` when `x` is `undefined`
(`none`) or the read is `undefined` or falsy. -/
def jsLenOrZero : Option JVal → JVal
  | some v =>
    match jsLengthProp v with
    | some w => if jsTruthy w then w else JVal.num 0
    | none => JVal.num 0
  | none => JVal.num 0

/-- Natural-number reading of a JS count value, used by the ℕ-valued snapshot
model: a number gives its value clamped to ℕ.  A count that is a negative
number or a truthy non-number — which live JS would write into the snapshot
verbatim — has no ℕ representation and reads as 0 here; the exact JS value is
kept by `jsLenOrZero`. -/
def countNat : JVal → Nat
  | JVal.num n => n.toNat
  | _ => 0

/-- JavaScript `x?.length || 0` as the ℕ count the pollers consume: the length
of an array or string, an own numeric `"length"` field of an object, and `0`
when `x` is `undefined` or its length read is `undefined` or falsy. -/
def optLenOrZero (o : Option JVal) : Nat := countNat (jsLenOrZero o)

/-- Decides whether `pat` stands at the front of `l` (character comparison). -/
def leadsWith : List Char → List Char → Bool
  | _, [] => true
  | [], _ :: _ => false
  | c :: cs, d :: ds => (c == d) && leadsWith cs ds

/-- Decides whether `pat` occurs contiguously anywhere inside `l`. -/
def occursWithin (pat : List Char) : List Char → Bool
  | [] => leadsWith [] pat
  | c :: cs => leadsWith (c :: cs) pat || occursWithin pat cs

/-- JavaScript `s.includes(sub)` (case-sensitive substring test), as used in
`activeSource.includes("birdeye")` in `src/unnamed/part_004` line 100. -/
def jsIncludes (s sub : String) : Bool :=
  occursWithin sub.toList s.toList

/-- Case-insensitive substring test: both sides lowered character-wise, the
meaning of a `/pat/i.test(s)` regex whose pattern is a literal word. -/
def includesCI (s pat : String) : Bool :=
  occursWithin (pat.toList.map Char.toLower) (s.toList.map Char.toLower)

/-!  Bounded fetcher, `fetchLimited` (`src/server.js` lines 77-111 and
`src/unnamed/part_003` lines 262-290).  The streamed body arrives as a list of
chunks (byte lists).  The handler pushes each chunk, adds its length to the
running total and destroys the stream once `total >= maxBytes`; the payload is
the concatenation of all pushed chunks. -/

/-- Chunks actually pushed by the `data` handler of `fetchLimited`: every chunk
is kept up to and including the first one that brings the running total
(starting from `total`) to at least `maxBytes`. -/
def takeChunks (maxBytes : Nat) : Nat → List (List Nat) → List (List Nat)
  | _, [] => []
  | total, c :: rest =>
    if maxBytes ≤ total + c.length then [c]
    else c :: takeChunks maxBytes (total + c.length) rest

/-- Payload returned by `fetchLimited` for a body streamed as `chunks`:
`Buffer.concat(chunks)` of the pushed chunks. -/
def fetchLimitedPayload (maxBytes : Nat) (chunks : List (List Nat)) : List Nat :=
  (takeChunks maxBytes 0 chunks).flatten

/-!  Snapshot cache shared by the poller variants: the `CACHE` object of
`part_000`, `part_003` (v5.3.4) and `part_004` (v5.3.2). -/

/-- The `CACHE` snapshot `{ tokenCount, lastPoll, activeSource, backupUsed }`.
`lastPoll` is the poll timestamp (an ISO string in JS, a `Nat` here). -/
structure DexCache where
  tokenCount : Nat
  lastPoll : Nat
  activeSource : String
  backupUsed : Bool

/-!  Failover poller of `src/unnamed/part_000` (v5.1), `pollDEX` lines 65-92. -/

/-- First entry of `SOURCES.raydium` in `part_000` (the primary). -/
def RAY0 : String := "https://api.raydium.io/pairs"

/-- Second entry of `SOURCES.raydium` in `part_000` (backup 1). -/
def RAY1 : String := "https://api.dexscreener.io/latest/dex/pairs/solana"

/-- Third entry of `SOURCES.raydium` in `part_000` (backup 2). -/
def RAY2 : String :=
  "https://public-api.birdeye.so/public/market/overview?sort_by=volume_24h&sort_type=desc&offset=0&limit=100"

/-- The ordered `SOURCES.raydium` registry of `part_000`. -/
def RAY_SOURCES : List String := [RAY0, RAY1, RAY2]

/-- The loop guard `result.ok && result.data` of `pollDEX`: the fetch succeeded
and its parsed body is truthy. -/
def okTruthy : Option JVal → Bool
  | some d => jsTruthy d
  | none => false

/-- The `for (let url of SOURCES.raydium)` loop of `pollDEX`: the first URL
whose fetch outcome satisfies `result.ok && result.data`. -/
def findWinner (env : String → Option JVal) : List String → Option String
  | [] => none
  | u :: rest => if okTruthy (env u) then some u else findWinner env rest

/-- `pollDEX` of `part_000` lines 65-92.  `env url` is the outcome of
`fetchJSON url`; `orca` is the outcome of the independent Orca fetch.  The
cache is rebuilt with `activeSource = sourceUsed || "All failed"`,
`backupUsed = sourceUsed !== SOURCES.raydium[0]` and
`tokenCount = (raydiumResult.data?.length || 0) + (orcaResult.data?.length || 0)`. -/
def pollDEX (env : String → Option JVal) (orca : Option JVal) (now : Nat) : DexCache :=
  let sourceUsed := (findWinner env RAY_SOURCES).getD ""
  { tokenCount :=
      optLenOrZero (if sourceUsed = "" then none else env sourceUsed) + optLenOrZero orca
    lastPoll := now
    activeSource := if sourceUsed = "" then "All failed" else sourceUsed
    backupUsed := sourceUsed != RAY0 }

/-!  Failover poller of `src/unnamed/part_003` (v5.3.4), `pollOnce` lines
75-134, chain DexPairs -> DexSearch -> BirdEye plus an independent Orca fetch. -/

/-- Count used for the DexPairs/DexSearch outcomes:
`Array.isArray(d?.pairs) ? d.pairs.length : 0`. -/
def pairsCountOf (d : JVal) : Nat :=
  match jsGet d "pairs" with
  | some (JVal.arr xs) => xs.length
  | _ => 0

/-- Count used for the BirdEye outcome: `bird.data?.data?.length || 0`
(the fetched body is `bird.data`, so this reads its `data` field), as the ℕ
count consumed by the poller; `birdLenVal` keeps the exact JS value. -/
def birdCountOf (d : JVal) : Nat :=
  optLenOrZero (jsGet d "data")

/-- Exact JS value of the BirdEye count expression `bird.data?.data?.length
|| 0` evaluated on the fetched body `d`. -/
def birdLenVal (d : JVal) : JVal :=
  jsLenOrZero (jsGet d "data")

/-- Count used for the Orca outcome in v5.3.4:
`Array.isArray(orca.data) ? orca.data.length : 0`. -/
def orcaArrCount : Option JVal → Nat
  | some (JVal.arr xs) => xs.length
  | _ => 0

/-- Fetch outcomes available to one v5.3.4 `pollOnce` cycle. -/
structure Env534 where
  dexPairs : Option JVal
  dexSearch : Option JVal
  birdEye : Option JVal
  orca : Option JVal

/-- One DexPairs-shaped attempt of the v5.3.4 chain: the source wins (with its
count) only when the fetch succeeded and `count > 0`; a reachable source with
an empty `pairs` result yields no winner. -/
def tryPairsSource (label : String) (o : Option JVal) : Option (String × Nat) :=
  match o with
  | some d => if 0 < pairsCountOf d then some (label, pairsCountOf d) else none
  | none => none

/-- The failover chain of v5.3.4 `pollOnce`: DexPairs, then DexSearch (both
skipped on failure or zero count), then BirdEye, which wins whenever its fetch
succeeds, whatever its count. -/
def winner534 (env : Env534) : Option (String × Nat) :=
  match tryPairsSource "DexPairs" env.dexPairs with
  | some w => some w
  | none =>
    match tryPairsSource "DexSearch" env.dexSearch with
    | some w => some w
    | none =>
      match env.birdEye with
      | some d => some ("BirdEye", birdCountOf d)
      | none => none

/-- Cache rebuild of v5.3.4 `pollOnce` (lines 122-127):
`tokenCount = totalTokens + orcaCount`, `activeSource = activeSource || "All
failed"`, `backupUsed = activeSource === "BirdEye" || activeSource ===
"DexSearch"` (on the local variable, empty when all failed). -/
def pollOnce534 (env : Env534) (now : Nat) : DexCache :=
  let src := ((winner534 env).map Prod.fst).getD ""
  let tot := ((winner534 env).map Prod.snd).getD 0
  { tokenCount := tot + orcaArrCount env.orca
    lastPoll := now
    activeSource := if src = "" then "All failed" else src
    backupUsed := (src == "BirdEye") || (src == "DexSearch") }

/-- Mutable state of the v5.3.4 module: the cache and the `isPolling`
re-entrancy flag. -/
structure PollSystem534 where
  cache : DexCache
  isPolling : Bool

/-- Sources actually fetched by one full (non-skipped) v5.3.4 cycle: DexPairs
always, DexSearch only when DexPairs was unusable, BirdEye only when both were,
Orca always. -/
def fetchLog534 (env : Env534) : List String :=
  "DexPairs" ::
    ((if (tryPairsSource "DexPairs" env.dexPairs).isSome then []
      else "DexSearch" ::
        (if (tryPairsSource "DexSearch" env.dexSearch).isSome then []
         else ["BirdEye"])) ++ ["Orca"])

/-- One scheduled invocation of v5.3.4 `pollOnce` (lines 75-134): if
`isPolling` is set the invocation returns at once (no fetch, no state change);
otherwise it runs a full cycle, replaces the cache and clears the flag.  The
second component lists the sources fetched. -/
def pollOnce534Step (s : PollSystem534) (env : Env534) (now : Nat) :
    PollSystem534 × List String :=
  if s.isPolling then (s, [])
  else ({ cache := pollOnce534 env now, isPolling := false }, fetchLog534 env)

/-!  Failover poller of `src/unnamed/part_004` (v5.3.2), `pollOnce` lines
71-105, chain DexScreener -> BirdEye plus an independent Orca fetch. -/

/-- `DEXSCREENER_SOLANA` of `part_004`. -/
def DEXSCREENER_SOLANA : String := "https://api.dexscreener.com/latest/dex/tokens/solana"

/-- `BIRDEYE_SOLANA` of `part_004`. -/
def BIRDEYE_SOLANA : String :=
  "https://public-api.birdeye.so/defi/market_overview?chain=solana&sort_by=volume_24h&sort_type=desc&offset=0&limit=50"

/-- `ORCA_SOURCE` of `part_004`. -/
def ORCA_SOURCE : String := "https://api.mainnet.orca.so/allPools"

/-- Fetch outcomes available to one v5.3.2 `pollOnce` cycle. -/
structure Env532 where
  dex : Option JVal
  bird : Option JVal
  orca : Option JVal

/-- The v5.3.2 chain: DexScreener wins whenever its fetch succeeds (its count
may be 0); only on DexScreener failure is BirdEye tried, which also wins
whenever its fetch succeeds. -/
def winner532 (env : Env532) : Option (String × Nat) :=
  match env.dex with
  | some d => some (DEXSCREENER_SOLANA, pairsCountOf d)
  | none =>
    match env.bird with
    | some b => some (BIRDEYE_SOLANA, birdCountOf b)
    | none => none

/-- Cache rebuild of v5.3.2 `pollOnce` (lines 96-101):
`tokenCount = totalTokens + (orca.data?.length || 0)`, `activeSource =
activeSource || "All failed"`, `backupUsed = activeSource.includes("birdeye")`
(on the local variable, empty when all failed). -/
def pollOnce532 (env : Env532) (now : Nat) : DexCache :=
  let src := ((winner532 env).map Prod.fst).getD ""
  let tot := ((winner532 env).map Prod.snd).getD 0
  { tokenCount := tot + optLenOrZero env.orca
    lastPoll := now
    activeSource := if src = "" then "All failed" else src
    backupUsed := jsIncludes src "birdeye" }

/-- Mutable state of the v5.3.2 module: the cache and the `isPolling` flag. -/
structure PollSystem532 where
  cache : DexCache
  isPolling : Bool

/-- Sources fetched by one full v5.3.2 cycle: DexScreener always, BirdEye only
on DexScreener failure, Orca always. -/
def fetchLog532 (env : Env532) : List String :=
  DEXSCREENER_SOLANA :: ((if env.dex.isSome then [] else [BIRDEYE_SOLANA]) ++ [ORCA_SOURCE])

/-- One scheduled invocation of v5.3.2 `pollOnce` (lines 71-105), with the same
re-entrancy guard as v5.3.4. -/
def pollOnce532Step (s : PollSystem532) (env : Env532) (now : Nat) :
    PollSystem532 × List String :=
  if s.isPolling then (s, [])
  else ({ cache := pollOnce532 env now, isPolling := false }, fetchLog532 env)

/-!  Dedup ledger of `src/server.js` (`state.tokens`, `upsertToken` lines
141-149); `upsertPair` in `src/unnamed/part_003` lines 316-321 is identical up
to renaming.  The `Map` is modelled as an association list with the first
binding of a key authoritative; `upsertToken` only ever appends unseen keys. -/

/-- One tracked token entry `{ address, source, firstSeen, lastSeen }`. -/
structure TokenEntry where
  address : String
  source : String
  firstSeen : Nat
  lastSeen : Nat
deriving DecidableEq

/-- `state.tokens.get(address)` on the modelled ledger. -/
def lget : List (String × TokenEntry) → String → Option TokenEntry
  | [], _ => none
  | (k, e) :: rest, a => if k = a then some e else lget rest a

/-- `upsertToken(address, source)` at time `now` (`src/server.js` lines
141-149): a seen address gets only `lastSeen` updated; an unseen address is
inserted as `{ address, source, firstSeen: now, lastSeen: now }`. -/
def upsertToken : List (String × TokenEntry) → String → String → Nat →
    List (String × TokenEntry)
  | [], addr, source, now =>
    [(addr, { address := addr, source := source, firstSeen := now, lastSeen := now })]
  | (k, e) :: rest, addr, source, now =>
    if k = addr then (k, { e with lastSeen := now }) :: rest
    else (k, e) :: upsertToken rest addr source now

/-!  Wallet win-rate MVP of `src/unnamed/part_003` (v5 backend), lines 402-491. -/

/-- `TradeInfo` record `{ mint, firstSeen, swapCount }` (`firstSeen` in ms). -/
structure TradeRecord where
  mint : String
  firstSeen : Nat
  swapCount : Nat
deriving DecidableEq

/-- One watched wallet `{ label, trades }`; trades keyed by token mint. -/
structure WalletInfo where
  label : Option String
  trades : List (String × TradeRecord)

/-- Win classification of `/wallets/stats` (lines 455-458):
`aliveForMs = now - t.firstSeen`, `survived = aliveForMs >= WIN_MS`,
`multiSwaps = t.swapCount >= 2`, `isWin = survived && multiSwaps`.
The subtraction is signed, as in JS. -/
def isWin (now winMs : Nat) (t : TradeRecord) : Bool :=
  decide ((winMs : Int) ≤ (now : Int) - (t.firstSeen : Int)) && decide (2 ≤ t.swapCount)

/-- Exact model of `count ? Math.round((wins / count) * 100) : 0`:
`Math.round x = ⌊x + 1/2⌋` for `x ≥ 0`, and
`⌊100 * w / c + 1/2⌋ = (200 * w + c) / (2 * c)` in integers. -/
def pctRound (wins count : Nat) : Nat :=
  if count = 0 then 0 else (200 * wins + count) / (2 * count)

/-- Number of win-classified trades of a wallet (the `wins` accumulator). -/
def countWins (now winMs : Nat) (trades : List (String × TradeRecord)) : Nat :=
  (trades.filter (fun p => isWin now winMs p.2)).length

/-- Per-wallet block pushed to `details` by `/wallets/stats`. -/
structure WalletStat where
  address : String
  label : Option String
  tokens : Nat
  wins : Nat
  winRate : Nat
deriving DecidableEq

/-- The `global` block of the `/wallets/stats` response. -/
structure GlobalStat where
  tokens : Nat
  wins : Nat
  winRate : Nat
deriving DecidableEq

/-- Per-wallet portion of the `/wallets/stats` loop (lines 448-481): `count`
trades, `wins` winners, `winRate = count ? Math.round((wins/count)*100) : 0`. -/
def walletStat (now winMs : Nat) (address : String) (w : WalletInfo) : WalletStat :=
  { address := address
    label := w.label
    tokens := w.trades.length
    wins := countWins now winMs w.trades
    winRate := pctRound (countWins now winMs w.trades) w.trades.length }

/-- Whole `/wallets/stats` computation (lines 442-491): per-wallet details plus
the global block, whose `winRate` is taken over the summed wins and counts. -/
def walletsStats (now winMs : Nat) (ws : List (String × WalletInfo)) :
    GlobalStat × List WalletStat :=
  let details := ws.map (fun p => walletStat now winMs p.1 p.2)
  let totalWins := (details.map (fun d => d.wins)).sum
  let total := (details.map (fun d => d.tokens)).sum
  ({ tokens := total, wins := totalWins, winRate := pctRound totalWins total }, details)

/-!  Upstream shape counting of `src/unnamed/part_001` (v2 `/liquidity-check`,
lines 66-91). -/

/-- JavaScript `Object.keys(v).length` for a parsed JSON value: field count of
an object, index count of an array, character count of a string, `0` for other
primitives. -/
def objectKeysCount : JVal → Nat
  | JVal.obj fs => fs.length
  | JVal.arr xs => xs.length
  | JVal.str s => s.length
  | _ => 0

/-- The Raydium count of `part_001` line 72: `Object.keys(rayJson || {}).length`
(a falsy body is replaced by the empty object first). -/
def v2RaydiumCount (j : JVal) : Nat :=
  objectKeysCount (if jsTruthy j then j else JVal.obj [])

/-!  Helius swap ingestion of `src/unnamed/part_003`, `fetchWalletSwaps` lines
508-542.  A transaction is modelled by its classification fields, its
timestamp (seconds, as delivered by Helius) and the list of mints present on
its `tokenTransfers` (transfers without a mint are already dropped, matching
the `if (tr?.mint)` guard). -/

/-- One Helius transaction as consumed by `fetchWalletSwaps`. -/
structure Tx where
  description : String
  txType : String
  timestamp : Nat
  tokenTransfers : List String

/-- `tx?.description || tx?.type || ""`: the description unless empty, else the
type. -/
def txDesc (tx : Tx) : String :=
  if tx.description = "" then tx.txType else tx.description

/-- The swap classifier `/swap|amm|raydium|orca/i.test(desc)`. -/
def isSwapDesc (s : String) : Bool :=
  includesCI s "swap" || includesCI s "amm" || includesCI s "raydium" || includesCI s "orca"

/-- A transaction passes the swap filter iff its derived description matches. -/
def isSwapTx (tx : Tx) : Bool :=
  isSwapDesc (txDesc tx)

/-- Insertion into the per-transaction `mints` `Set` (membership-checked). -/
def insertMint (acc : List String) (m : String) : List String :=
  if m ∈ acc then acc else acc ++ [m]

/-- The `mints` `Set` of one transaction, in insertion order. -/
def dedupMints (l : List String) : List String :=
  l.foldl insertMint []

/-- `info.trades.get(mint)` on the modelled trades map. -/
def tlookup : List (String × TradeRecord) → String → Option TradeRecord
  | [], _ => none
  | (k, t) :: rest, m => if k = m then some t else tlookup rest m

/-- The `t.swapCount++` branch: bump the swap count of the binding for `m`. -/
def tbump : List (String × TradeRecord) → String → List (String × TradeRecord)
  | [], _ => []
  | (k, t) :: rest, m =>
    if k = m then (k, { t with swapCount := t.swapCount + 1 }) :: rest
    else (k, t) :: tbump rest m

/-- The `mints.forEach` body (lines 528-540): an untracked mint is inserted
with `firstSeen = tx.timestamp * 1000` and `swapCount = 1`; a tracked mint has
its swap count incremented, `firstSeen` untouched. -/
def applyMint (ts : Nat) (trades : List (String × TradeRecord)) (m : String) :
    List (String × TradeRecord) :=
  match tlookup trades m with
  | some _ => tbump trades m
  | none => trades ++ [(m, { mint := m, firstSeen := ts * 1000, swapCount := 1 })]

/-- Processing of one transaction (lines 515-541): non-swap transactions are
skipped; a swap transaction applies each of its deduplicated mints. -/
def applyTx (trades : List (String × TradeRecord)) (tx : Tx) :
    List (String × TradeRecord) :=
  if isSwapTx tx then (dedupMints tx.tokenTransfers).foldl (applyMint tx.timestamp) trades
  else trades

/-- `fetchWalletSwaps` over one fetched transaction window: every transaction
is processed in order against the wallet's trades map. -/
def fetchWalletSwaps (trades : List (String × TradeRecord)) (txs : List Tx) :
    List (String × TradeRecord) :=
  txs.foldl applyTx trades

/-- Contribution of one transaction to a mint's swap count: `1` iff the
transaction is swap-classified and mentions the mint. -/
def txOcc (m : String) (tx : Tx) : Nat :=
  if isSwapTx tx then (if m ∈ tx.tokenTransfers then 1 else 0) else 0

/-- Number of swap-classified transactions of a window mentioning mint `m`. -/
def occCount (m : String) (txs : List Tx) : Nat :=
  (txs.map (txOcc m)).sum

/-!  Concrete fetch environments used to instantiate the theorems below. -/

/-- Environment for `pollDEX` in which the primary source is reachable but
returns an empty object (count 0), backup 1 returns three pairs and backup 2
fails. -/
def envEmptyFirst : String → Option JVal := fun u =>
  if u = RAY0 then some (JVal.obj [])
  else if u = RAY1 then some (JVal.arr [JVal.null, JVal.null, JVal.null]) else none

/-- v5.3.4 environment: DexPairs reachable with no usable pairs, DexSearch
reachable with three pairs. -/
def envSearchWins : Env534 :=
  { dexPairs := some (JVal.obj [])
    dexSearch := some (JVal.obj [("pairs", JVal.arr [JVal.null, JVal.null, JVal.null])])
    birdEye := none
    orca := none }

/-- v5.3.4 environment: DexPairs and DexSearch fail, BirdEye reachable with an
empty `data` array. -/
def envBirdEmpty : Env534 :=
  { dexPairs := none
    dexSearch := none
    birdEye := some (JVal.obj [("data", JVal.arr [])])
    orca := none }

/-!  Concrete wallets (evaluated at `now = 600000`, `winMs = 300000`: a trade
with `firstSeen = 0, swapCount = 2` is a win; `firstSeen = 600000` or
`swapCount = 1` is not). -/

/-- Wallet with 1 win out of 2 tokens. -/
def wHalf : WalletInfo :=
  ⟨none, [("m1", ⟨"m1", 0, 2⟩), ("m2", ⟨"m2", 600000, 1⟩)]⟩

/-- Wallet with 2 wins out of 2 tokens. -/
def wFull : WalletInfo :=
  ⟨none, [("m3", ⟨"m3", 0, 2⟩), ("m4", ⟨"m4", 0, 3⟩)]⟩

/-- Wallet with 1 win out of 1 token. -/
def wOne : WalletInfo :=
  ⟨none, [("m5", ⟨"m5", 0, 2⟩)]⟩

/-- Wallet with 0 wins out of 3 tokens. -/
def wZero : WalletInfo :=
  ⟨none, [("m6", ⟨"m6", 600000, 1⟩), ("m7", ⟨"m7", 600000, 1⟩), ("m8", ⟨"m8", 600000, 1⟩)]⟩

/-- Wallet with 1 win out of 3 tokens. -/
def wThird : WalletInfo :=
  ⟨none, [("m1", ⟨"m1", 0, 2⟩), ("m2", ⟨"m2", 600000, 1⟩), ("m3", ⟨"m3", 600000, 1⟩)]⟩

/-!  Helper lemmas. -/

theorem lget_upsert_new (l : List (String × TokenEntry)) (a s : String) (t : Nat)
    (h : lget l a = none) :
    lget (upsertToken l a s t) a =
      some { address := a, source := s, firstSeen := t, lastSeen := t } := by
  induction l with
  | nil => simp [upsertToken, lget]
  | cons p rest ih =>
    obtain ⟨k, e⟩ := p
    by_cases hk : k = a
    · simp [lget, hk] at h
    · simp [lget, hk] at h
      simp [upsertToken, lget, hk, ih h]

theorem lget_upsert_seen (l : List (String × TokenEntry)) (a : String) (e : TokenEntry)
    (s' : String) (t' : Nat) (h : lget l a = some e) :
    lget (upsertToken l a s' t') a = some { e with lastSeen := t' } := by
  induction l with
  | nil => simp [lget] at h
  | cons p rest ih =>
    obtain ⟨k, e₀⟩ := p
    by_cases hk : k = a
    · simp [lget, hk] at h
      simp [upsertToken, lget, hk, h]
    · simp [lget, hk] at h
      simp [upsertToken, lget, hk, ih h]

theorem upsert_idem (l : List (String × TokenEntry)) (a s : String) (t : Nat) :
    upsertToken (upsertToken l a s t) a s t = upsertToken l a s t := by
  induction l with
  | nil => simp [upsertToken]
  | cons p rest ih =>
    obtain ⟨k, e⟩ := p
    by_cases hk : k = a
    · simp [upsertToken, hk]
    · simp [upsertToken, hk, ih]

theorem takeChunks_all (maxB : Nat) (chunks : List (List Nat)) :
    ∀ total, total + (chunks.map List.length).sum < maxB →
      takeChunks maxB total chunks = chunks := by
  induction chunks with
  | nil => intro total _; rfl
  | cons c rest ih =>
    intro total h
    simp only [List.map_cons, List.sum_cons] at h
    have hlt : ¬ maxB ≤ total + c.length := by omega
    simp only [takeChunks, if_neg hlt]
    rw [ih (total + c.length) (by omega)]

theorem takeChunks_bound (maxB C : Nat) (chunks : List (List Nat)) :
    ∀ total, total < maxB → (∀ c ∈ chunks, c.length ≤ C) →
      total + ((takeChunks maxB total chunks).map List.length).sum < maxB + C := by
  induction chunks with
  | nil => intro total h _; simp [takeChunks]; omega
  | cons c rest ih =>
    intro total h hC
    have hc : c.length ≤ C := hC c (by simp)
    by_cases hs : maxB ≤ total + c.length
    · simp only [takeChunks, if_pos hs, List.map_cons, List.map_nil, List.sum_cons,
        List.sum_nil]
      omega
    · simp only [takeChunks, if_neg hs, List.map_cons, List.sum_cons]
      have := ih (total + c.length) (by omega) (fun x hx => hC x (by simp [hx]))
      omega

theorem takeChunks_pre (maxB : Nat) (chunks : List (List Nat)) :
    ∀ total, ∃ rest, (takeChunks maxB total chunks).flatten ++ rest = chunks.flatten := by
  induction chunks with
  | nil => intro total; exact ⟨[], rfl⟩
  | cons c rest ih =>
    intro total
    by_cases hs : maxB ≤ total + c.length
    · refine ⟨rest.flatten, ?_⟩
      simp [takeChunks, if_pos hs]
    · obtain ⟨r, hr⟩ := ih (total + c.length)
      refine ⟨r, ?_⟩
      simp only [takeChunks, if_neg hs, List.flatten_cons, List.append_assoc, hr]

/-!  Claim theorems. -/

/-- C3: Dedup Ledger upsert: an unseen address is inserted as
`{address, source, firstSeen: t, lastSeen: t}`; a seen address gets only
`lastSeen` updated (source and firstSeen keep their first-insertion values,
whatever source reports later); upserting the same observation twice at the
same instant equals upserting it once. -/
theorem c3_upsert_ledger (l : List (String × TokenEntry)) (a s : String) (t : Nat) :
    (lget l a = none →
      lget (upsertToken l a s t) a =
        some { address := a, source := s, firstSeen := t, lastSeen := t }) ∧
    (∀ e s' t', lget l a = some e →
      lget (upsertToken l a s' t') a = some { e with lastSeen := t' }) ∧
    upsertToken (upsertToken l a s t) a s t = upsertToken l a s t :=
  ⟨lget_upsert_new l a s t,
   fun e s' t' h => lget_upsert_seen l a e s' t' h,
   upsert_idem l a s t⟩

/-- Witness for C3 on a concrete ledger: a fresh address inserted at time 5 by
raydium, then re-reported by orca at time 9, keeps source and firstSeen. -/
theorem c3_upsert_ledger_witness :
    lget (upsertToken [] "mintA" "raydium" 5) "mintA" =
      some { address := "mintA", source := "raydium", firstSeen := 5, lastSeen := 5 } ∧
    lget (upsertToken (upsertToken [] "mintA" "raydium" 5) "mintA" "orca" 9) "mintA" =
      some { address := "mintA", source := "raydium", firstSeen := 5, lastSeen := 9 } ∧
    upsertToken (upsertToken [] "mintA" "raydium" 5) "mintA" "raydium" 5 =
      upsertToken [] "mintA" "raydium" 5 :=
  ⟨(c3_upsert_ledger [] "mintA" "raydium" 5).1 (by decide),
   (c3_upsert_ledger (upsertToken [] "mintA" "raydium" 5) "mintA" "raydium" 5).2.1
     { address := "mintA", source := "raydium", firstSeen := 5, lastSeen := 5 }
     "orca" 9 (by decide),
   (c3_upsert_ledger [] "mintA" "raydium" 5).2.2⟩

/-- C2 counterexample: with `maxBytes = 10` and a single 15-byte chunk,
`fetchLimited` keeps the whole chunk, so the returned payload is 15 bytes —
it exceeds `maxBytes`.  The claim "the returned payload never exceeds maxBytes
bytes" is false of the code. -/
theorem c2_counterexample :
    (fetchLimitedPayload 10 [List.replicate 15 0]).length = 15 ∧
    ¬ (fetchLimitedPayload 10 [List.replicate 15 0]).length ≤ 10 := by
  decide

/-- C2 (amended): reading stops with the first chunk that brings the running
total to `maxBytes`, and the payload is every chunk received up to and
including that one.  Hence: a body shorter than `maxBytes` is returned whole;
the payload exceeds `maxBytes` by less than one chunk (with all chunks of size
at most `C`, the payload is shorter than `maxBytes + C`); and the payload is
always a prefix of the full body. -/
theorem c2_bounded_fetch_amended :
    (∀ maxBytes chunks, (chunks.map List.length).sum < maxBytes →
      fetchLimitedPayload maxBytes chunks = chunks.flatten) ∧
    (∀ maxBytes C chunks, 0 < maxBytes → (∀ c ∈ chunks, List.length c ≤ C) →
      (fetchLimitedPayload maxBytes chunks).length < maxBytes + C) ∧
    (∀ maxBytes chunks, ∃ rest,
      fetchLimitedPayload maxBytes chunks ++ rest = chunks.flatten) := by
  refine ⟨?_, ?_, ?_⟩
  · intro maxBytes chunks h
    unfold fetchLimitedPayload
    rw [takeChunks_all maxBytes chunks 0 (by omega)]
  · intro maxBytes C chunks h hC
    have := takeChunks_bound maxBytes C chunks 0 h hC
    unfold fetchLimitedPayload
    rw [List.length_flatten]
    omega
  · intro maxBytes chunks
    exact takeChunks_pre maxBytes chunks 0

/-- Witness for C2 (amended) at concrete inputs: a 5-byte body under a 10-byte
cap is returned whole, and the 15-byte-chunk payload stays under
`maxBytes + C = 25`. -/
theorem c2_bounded_fetch_amended_witness :
    ((([[1, 2], [3, 4, 5]] : List (List Nat)).map List.length).sum < 10 ∧
      fetchLimitedPayload 10 [[1, 2], [3, 4, 5]] = [1, 2, 3, 4, 5]) ∧
    (0 < 10 ∧ (fetchLimitedPayload 10 [List.replicate 15 0]).length < 10 + 15) :=
  ⟨⟨by decide, by
      have := c2_bounded_fetch_amended.1 10 [[1, 2], [3, 4, 5]] (by decide)
      simpa using this⟩,
   ⟨by decide, c2_bounded_fetch_amended.2.1 10 15 [List.replicate 15 0] (by decide)
      (by decide)⟩⟩

/-- C7: single-flight: an invocation of either `pollOnce` variant that fires
while the re-entrancy flag is still set returns immediately — the state
(cache and flag alike) is untouched and no source is fetched. -/
theorem c7_single_flight :
    (∀ (s : PollSystem534) (env : Env534) (now : Nat), s.isPolling = true →
      pollOnce534Step s env now = (s, [])) ∧
    (∀ (s : PollSystem532) (env : Env532) (now : Nat), s.isPolling = true →
      pollOnce532Step s env now = (s, [])) := by
  constructor
  · intro s env now h
    simp [pollOnce534Step, h]
  · intro s env now h
    simp [pollOnce532Step, h]

/-- Witness for C7: concrete overlapping invocations, both variants. -/
theorem c7_single_flight_witness :
    pollOnce534Step ⟨⟨7, 1, "DexPairs", false⟩, true⟩ ⟨none, none, none, none⟩ 2 =
      (⟨⟨7, 1, "DexPairs", false⟩, true⟩, []) ∧
    pollOnce532Step ⟨⟨7, 1, "DexScreener", false⟩, true⟩ ⟨none, none, none⟩ 2 =
      (⟨⟨7, 1, "DexScreener", false⟩, true⟩, []) :=
  ⟨c7_single_flight.1 ⟨⟨7, 1, "DexPairs", false⟩, true⟩ ⟨none, none, none, none⟩ 2 rfl,
   c7_single_flight.2 ⟨⟨7, 1, "DexScreener", false⟩, true⟩ ⟨none, none, none⟩ 2 rfl⟩

/-!  Poller helper lemmas. -/

theorem tryPairsSource_label {lab : String} {o : Option JVal} {w : String × Nat}
    (h : tryPairsSource lab o = some w) : w = (lab, w.2) := by
  cases o with
  | none => simp [tryPairsSource] at h
  | some d =>
    by_cases hc : 0 < pairsCountOf d
    · simp only [tryPairsSource, if_pos hc, Option.some.injEq] at h
      subst h; rfl
    · simp [tryPairsSource, hc] at h

theorem winner534_shape (env : Env534) :
    winner534 env = none ∨ (∃ n, winner534 env = some ("DexPairs", n)) ∨
    (∃ n, winner534 env = some ("DexSearch", n)) ∨
    (∃ n, winner534 env = some ("BirdEye", n)) := by
  unfold winner534
  cases h1 : tryPairsSource "DexPairs" env.dexPairs with
  | some w =>
    right; left; exact ⟨w.2, congrArg some (tryPairsSource_label h1)⟩
  | none =>
    cases h2 : tryPairsSource "DexSearch" env.dexSearch with
    | some w =>
      right; right; left; exact ⟨w.2, congrArg some (tryPairsSource_label h2)⟩
    | none =>
      cases hb : env.birdEye with
      | some d => right; right; right; exact ⟨birdCountOf d, rfl⟩
      | none => left; rfl

theorem pollOnce534_eval (env : Env534) (now : Nat) (w : String × Nat)
    (h : winner534 env = some w) (hne : ¬ w.1 = "") :
    (pollOnce534 env now).activeSource = w.1 ∧
    (pollOnce534 env now).backupUsed = ((w.1 == "BirdEye") || (w.1 == "DexSearch")) ∧
    (pollOnce534 env now).tokenCount = w.2 + orcaArrCount env.orca := by
  simp [pollOnce534, h, hne]

theorem pollOnce534_eval_none (env : Env534) (now : Nat)
    (h : winner534 env = none) :
    (pollOnce534 env now).activeSource = "All failed" := by
  simp [pollOnce534, h]

theorem winner532_shape (env : Env532) :
    winner532 env = none ∨ (∃ n, winner532 env = some (DEXSCREENER_SOLANA, n)) ∨
    (∃ n, winner532 env = some (BIRDEYE_SOLANA, n)) := by
  unfold winner532
  cases env.dex with
  | some d => right; left; exact ⟨pairsCountOf d, rfl⟩
  | none =>
    cases env.bird with
    | some b => right; right; exact ⟨birdCountOf b, rfl⟩
    | none => left; rfl

theorem pollOnce532_eval (env : Env532) (now : Nat) (w : String × Nat)
    (h : winner532 env = some w) (hne : ¬ w.1 = "") :
    (pollOnce532 env now).activeSource = w.1 ∧
    (pollOnce532 env now).backupUsed = jsIncludes w.1 "birdeye" := by
  simp [pollOnce532, h, hne]

theorem pollOnce532_eval_none (env : Env532) (now : Nat)
    (h : winner532 env = none) :
    (pollOnce532 env now).activeSource = "All failed" := by
  simp [pollOnce532, h]

theorem findWinner_mem (env : String → Option JVal) :
    ∀ (l : List String) (u : String), findWinner env l = some u → u ∈ l := by
  intro l
  induction l with
  | nil => intro u h; cases h
  | cons v rest ih =>
    intro u h
    unfold findWinner at h
    split at h
    · cases h; exact List.mem_cons_self v rest
    · exact List.mem_cons_of_mem v (ih u h)

theorem pollDEX_eval (env : String → Option JVal) (orca : Option JVal) (now : Nat)
    (u : String) (h : findWinner env RAY_SOURCES = some u) (hne : ¬ u = "") :
    (pollDEX env orca now).activeSource = u ∧
    (pollDEX env orca now).backupUsed = (u != RAY0) := by
  simp [pollDEX, h, hne]

theorem pollDEX_eval_none (env : String → Option JVal) (orca : Option JVal) (now : Nat)
    (h : findWinner env RAY_SOURCES = none) :
    (pollDEX env orca now).activeSource = "All failed" := by
  simp [pollDEX, h]

/-- C1 counterexample: `pollDEX` run where the first Raydium source succeeds
with an empty result set (an empty object, count 0) while the second source
succeeds with three entries.  The code stops at the first source —
`activeSource` is the primary with `tokenCount = 0` — whereas the claim
requires the poller to move on to the second source. -/
theorem c1_counterexample :
    (pollDEX envEmptyFirst none 0).activeSource = RAY0 ∧
    (pollDEX envEmptyFirst none 0).tokenCount = 0 ∧
    okTruthy (envEmptyFirst RAY1) = true ∧
    optLenOrZero (envEmptyFirst RAY1) = 3 ∧
    RAY0 ≠ RAY1 := by
  refine ⟨?_, ?_, ?_, ?_, ?_⟩ <;> decide

/-- C1 (amended): sources are tried in strict priority order, but "usable"
differs by source position and variant.  In v5.3.4 `pollOnce`, DexPairs and
DexSearch win only on a successful fetch with a positive pairs count (a
reachable zero-count source is skipped), while the final BirdEye source wins
whenever its fetch succeeds, even with count 0; if no source wins,
`activeSource = "All failed"`.  In v5.1 `pollDEX`, the first source whose
fetch succeeds with non-null data wins even when its result set is empty;
only when every source fails is `activeSource = "All failed"`. -/
theorem c1_failover_amended :
    (∀ (env : Env534) (now : Nat) (d : JVal), env.dexPairs = some d →
      0 < pairsCountOf d →
      (pollOnce534 env now).activeSource = "DexPairs" ∧
      (pollOnce534 env now).tokenCount = pairsCountOf d + orcaArrCount env.orca) ∧
    (∀ (env : Env534) (now : Nat) (d : JVal),
      tryPairsSource "DexPairs" env.dexPairs = none → env.dexSearch = some d →
      0 < pairsCountOf d → (pollOnce534 env now).activeSource = "DexSearch") ∧
    (∀ (env : Env534) (now : Nat) (d : JVal),
      tryPairsSource "DexPairs" env.dexPairs = none →
      tryPairsSource "DexSearch" env.dexSearch = none → env.birdEye = some d →
      (pollOnce534 env now).activeSource = "BirdEye") ∧
    (∀ (env : Env534) (now : Nat),
      tryPairsSource "DexPairs" env.dexPairs = none →
      tryPairsSource "DexSearch" env.dexSearch = none → env.birdEye = none →
      (pollOnce534 env now).activeSource = "All failed") ∧
    (∀ (env : String → Option JVal) (orca : Option JVal) (now : Nat) (d : JVal),
      env RAY0 = some d → jsTruthy d = true →
      (pollDEX env orca now).activeSource = RAY0) ∧
    (∀ (env : String → Option JVal) (orca : Option JVal) (now : Nat) (d : JVal),
      okTruthy (env RAY0) = false → env RAY1 = some d → jsTruthy d = true →
      (pollDEX env orca now).activeSource = RAY1) ∧
    (∀ (env : String → Option JVal) (orca : Option JVal) (now : Nat),
      okTruthy (env RAY0) = false → okTruthy (env RAY1) = false →
      okTruthy (env RAY2) = false →
      (pollDEX env orca now).activeSource = "All failed") := by
  refine ⟨?_, ?_, ?_, ?_, ?_, ?_, ?_⟩
  · intro env now d h1 h2
    have hw : winner534 env = some ("DexPairs", pairsCountOf d) := by
      unfold winner534
      rw [h1]
      simp [tryPairsSource, h2]
    have := pollOnce534_eval env now ("DexPairs", pairsCountOf d) hw
      (show ¬ ("DexPairs" : String) = "" by decide)
    exact ⟨this.1, this.2.2⟩
  · intro env now d hA h1 h2
    have hw : winner534 env = some ("DexSearch", pairsCountOf d) := by
      unfold winner534
      rw [hA, h1]
      simp [tryPairsSource, h2]
    exact (pollOnce534_eval env now ("DexSearch", pairsCountOf d) hw
      (show ¬ ("DexSearch" : String) = "" by decide)).1
  · intro env now d hA hB h1
    have hw : winner534 env = some ("BirdEye", birdCountOf d) := by
      unfold winner534
      rw [hA, hB, h1]
    exact (pollOnce534_eval env now ("BirdEye", birdCountOf d) hw
      (show ¬ ("BirdEye" : String) = "" by decide)).1
  · intro env now hA hB h1
    have hw : winner534 env = none := by
      unfold winner534
      rw [hA, hB, h1]
    exact pollOnce534_eval_none env now hw
  · intro env orca now d h1 h2
    have hw : findWinner env RAY_SOURCES = some RAY0 := by
      unfold RAY_SOURCES findWinner
      rw [h1]
      simp [okTruthy, h2]
    exact (pollDEX_eval env orca now RAY0 hw (by decide)).1
  · intro env orca now d h0 h1 h2
    have hw : findWinner env RAY_SOURCES = some RAY1 := by
      unfold RAY_SOURCES findWinner
      rw [h0]
      simp only [Bool.false_eq_true, if_false]
      unfold findWinner
      rw [h1]
      simp [okTruthy, h2]
    exact (pollDEX_eval env orca now RAY1 hw (by decide)).1
  · intro env orca now h0 h1 h2
    have hw : findWinner env RAY_SOURCES = none := by
      unfold RAY_SOURCES findWinner
      rw [h0]
      simp only [Bool.false_eq_true, if_false]
      unfold findWinner
      rw [h1]
      simp only [Bool.false_eq_true, if_false]
      unfold findWinner
      rw [h2]
      simp [findWinner]
    exact pollDEX_eval_none env orca now hw

/-- Witness for C1 (amended) at concrete environments: a zero-count DexPairs
with a usable DexSearch gives DexSearch; failed DexPairs/DexSearch with an
empty-but-reachable BirdEye gives BirdEye; all-failing sources give
"All failed". -/
theorem c1_failover_amended_witness :
    (pollOnce534 envSearchWins 1).activeSource = "DexSearch" ∧
    (pollOnce534 envBirdEmpty 1).activeSource = "BirdEye" ∧
    (pollDEX (fun _ => none) none 1).activeSource = "All failed" :=
  ⟨c1_failover_amended.2.1 envSearchWins 1
      (JVal.obj [("pairs", JVal.arr [JVal.null, JVal.null, JVal.null])])
      (by decide) rfl (by decide),
   c1_failover_amended.2.2.1 envBirdEmpty 1 (JVal.obj [("data", JVal.arr [])])
      (by decide) (by decide) rfl,
   c1_failover_amended.2.2.2.2.2.2 (fun _ => none) none 1 rfl rfl rfl⟩

/-- C6: on every completed poll cycle in which some source won (the snapshot is
not "All failed"), `backupUsed` is true exactly when the winning source is not
the first entry of that variant's registry — "DexPairs" in v5.3.4,
`DEXSCREENER_SOLANA` in v5.3.2, `SOURCES.raydium[0]` in v5.1. -/
theorem c6_backup_flag :
    (∀ (env : Env534) (now : Nat),
      (pollOnce534 env now).activeSource ≠ "All failed" →
      ((pollOnce534 env now).backupUsed = true ↔
        (pollOnce534 env now).activeSource ≠ "DexPairs")) ∧
    (∀ (env : Env532) (now : Nat),
      (pollOnce532 env now).activeSource ≠ "All failed" →
      ((pollOnce532 env now).backupUsed = true ↔
        (pollOnce532 env now).activeSource ≠ DEXSCREENER_SOLANA)) ∧
    (∀ (env : String → Option JVal) (orca : Option JVal) (now : Nat),
      (pollDEX env orca now).activeSource ≠ "All failed" →
      ((pollDEX env orca now).backupUsed = true ↔
        (pollDEX env orca now).activeSource ≠ RAY0)) := by
  refine ⟨?_, ?_, ?_⟩
  · intro env now h
    rcases winner534_shape env with hn | ⟨n, hw⟩ | ⟨n, hw⟩ | ⟨n, hw⟩
    · exact absurd (pollOnce534_eval_none env now hn) h
    · obtain ⟨ha, hb, _⟩ := pollOnce534_eval env now ("DexPairs", n) hw
        (show ¬ ("DexPairs" : String) = "" by decide)
      rw [ha, hb]
      dsimp only
      decide
    · obtain ⟨ha, hb, _⟩ := pollOnce534_eval env now ("DexSearch", n) hw
        (show ¬ ("DexSearch" : String) = "" by decide)
      rw [ha, hb]
      dsimp only
      decide
    · obtain ⟨ha, hb, _⟩ := pollOnce534_eval env now ("BirdEye", n) hw
        (show ¬ ("BirdEye" : String) = "" by decide)
      rw [ha, hb]
      dsimp only
      decide
  · intro env now h
    rcases winner532_shape env with hn | ⟨n, hw⟩ | ⟨n, hw⟩
    · exact absurd (pollOnce532_eval_none env now hn) h
    · obtain ⟨ha, hb⟩ := pollOnce532_eval env now (DEXSCREENER_SOLANA, n) hw
        (show ¬ DEXSCREENER_SOLANA = "" by decide)
      rw [ha, hb]
      dsimp only
      decide
    · obtain ⟨ha, hb⟩ := pollOnce532_eval env now (BIRDEYE_SOLANA, n) hw
        (show ¬ BIRDEYE_SOLANA = "" by decide)
      rw [ha, hb]
      dsimp only
      decide
  · intro env orca now h
    cases hwf : findWinner env RAY_SOURCES with
    | none => exact absurd (pollDEX_eval_none env orca now hwf) h
    | some u =>
      have hm := findWinner_mem env RAY_SOURCES u hwf
      simp only [RAY_SOURCES, List.mem_cons, List.not_mem_nil, or_false] at hm
      rcases hm with h0 | h1 | h2
      · subst h0
        obtain ⟨ha, hb⟩ := pollDEX_eval env orca now RAY0 hwf (by decide)
        rw [ha, hb]
        decide
      · subst h1
        obtain ⟨ha, hb⟩ := pollDEX_eval env orca now RAY1 hwf (by decide)
        rw [ha, hb]
        decide
      · subst h2
        obtain ⟨ha, hb⟩ := pollDEX_eval env orca now RAY2 hwf (by decide)
        rw [ha, hb]
        decide

/-- Witness for C6 on concrete winning cycles of all three variants. -/
theorem c6_backup_flag_witness :
    ((pollOnce534 envSearchWins 1).backupUsed = true ↔
      (pollOnce534 envSearchWins 1).activeSource ≠ "DexPairs") ∧
    ((pollOnce532 ⟨none, some (JVal.obj []), none⟩ 1).backupUsed = true ↔
      (pollOnce532 ⟨none, some (JVal.obj []), none⟩ 1).activeSource ≠ DEXSCREENER_SOLANA) ∧
    ((pollDEX envEmptyFirst none 0).backupUsed = true ↔
      (pollDEX envEmptyFirst none 0).activeSource ≠ RAY0) :=
  ⟨c6_backup_flag.1 envSearchWins 1 (by decide),
   c6_backup_flag.2.1 ⟨none, some (JVal.obj []), none⟩ 1 (by decide),
   c6_backup_flag.2.2 envEmptyFirst none 0 (by decide)⟩

/-- Exactness of the integer model of `Math.round((wins / count) * 100)`:
for a non-empty wallet the stored percentage is the floor of the exact
percentage plus one half. -/
theorem pctRound_eq_round (w c : Nat) (h : c ≠ 0) :
    (pctRound w c : ℤ) = ⌊100 * (w : ℚ) / (c : ℚ) + 1 / 2⌋ := by
  have hc : (c : ℚ) ≠ 0 := by exact_mod_cast h
  have h2 : 100 * (w : ℚ) / (c : ℚ) + 1 / 2 =
      ((200 * w + c : ℕ) : ℚ) / ((2 * c : ℕ) : ℚ) := by
    push_cast
    field_simp
    ring
  unfold pctRound
  rw [if_neg h, h2, Rat.floor_natCast_div_natCast]
  exact Int.ofNat_div _ _

/-- C4 counterexample: a wallet with 1 win among 3 tokens gets `winRate = 33`
from the code (a rounded whole-number percentage), which equals neither the
ratio `wins / tokenCount = 1/3` nor the exact percentage `100/3` — so
"the per-wallet winRate equals wins / tokenCount" is false as stated. -/
theorem c4_counterexample :
    (walletStat 600000 300000 "w" wThird).wins = 1 ∧
    (walletStat 600000 300000 "w" wThird).tokens = 3 ∧
    (walletStat 600000 300000 "w" wThird).winRate = 33 ∧
    (33 : ℚ) ≠ 1 / 3 ∧ (33 : ℚ) ≠ 100 / 3 := by
  refine ⟨by decide, by decide, by decide, by norm_num, by norm_num⟩

/-- C4 (amended): a trade is a win iff it survived at least `winMs` and has at
least two swaps; a single-swap token is never a win whatever its age; a
too-young token is not a win whatever its swap count; the reported `wins` is
the number of win-classified trades; the reported `winRate` is the rounded
whole-number percentage of `wins / tokenCount` (floor of the exact percentage
plus one half), and is 0 on an empty wallet — never a division error. -/
theorem c4_win_rate_amended :
    (∀ (now winMs : Nat) (t : TradeRecord),
      isWin now winMs t = true ↔
        ((winMs : Int) ≤ (now : Int) - (t.firstSeen : Int) ∧ 2 ≤ t.swapCount)) ∧
    (∀ (now winMs : Nat) (t : TradeRecord), t.swapCount ≤ 1 →
      isWin now winMs t = false) ∧
    (∀ (now winMs : Nat) (t : TradeRecord),
      (now : Int) - (t.firstSeen : Int) < (winMs : Int) → isWin now winMs t = false) ∧
    (∀ (now winMs : Nat) (addr : String) (w : WalletInfo),
      (walletStat now winMs addr w).wins =
        (w.trades.filter (fun p => isWin now winMs p.2)).length) ∧
    (∀ (now winMs : Nat) (addr : String) (w : WalletInfo), w.trades.length ≠ 0 →
      ((walletStat now winMs addr w).winRate : ℤ) =
        ⌊100 * ((walletStat now winMs addr w).wins : ℚ) /
          ((walletStat now winMs addr w).tokens : ℚ) + 1 / 2⌋) ∧
    (∀ (now winMs : Nat) (addr : String) (lab : Option String),
      (walletStat now winMs addr ⟨lab, []⟩).winRate = 0 ∧
      (walletStat now winMs addr ⟨lab, []⟩).tokens = 0) := by
  refine ⟨?_, ?_, ?_, ?_, ?_, ?_⟩
  · intro now winMs t
    simp [isWin]
  · intro now winMs t h
    simp [isWin]
    omega
  · intro now winMs t h
    simp [isWin]
    omega
  · intro now winMs addr w
    rfl
  · intro now winMs addr w h
    exact pctRound_eq_round (countWins now winMs w.trades) w.trades.length h
  · intro now winMs addr lab
    exact ⟨rfl, rfl⟩

/-- Witness for C4 (amended): the spec's own test vector — a trade first seen
10 minutes ago with 2 swaps and a 5-minute threshold is a win; with 1 swap it
is not, however old; and the rounded-percentage form holds on `wThird`. -/
theorem c4_win_rate_amended_witness :
    (isWin 600000 300000 ⟨"m", 0, 2⟩ = true ↔
      ((300000 : Int) ≤ (600000 : Int) - ((0 : Nat) : Int) ∧ 2 ≤ 2)) ∧
    isWin 600000 300000 ⟨"m", 0, 1⟩ = false ∧
    isWin 600000 300000 ⟨"m", 600000, 2⟩ = false ∧
    ((walletStat 600000 300000 "w" wThird).winRate : ℤ) =
      ⌊100 * ((walletStat 600000 300000 "w" wThird).wins : ℚ) /
        ((walletStat 600000 300000 "w" wThird).tokens : ℚ) + 1 / 2⌋ :=
  ⟨c4_win_rate_amended.1 600000 300000 ⟨"m", 0, 2⟩,
   c4_win_rate_amended.2.1 600000 300000 ⟨"m", 0, 1⟩ (by decide),
   c4_win_rate_amended.2.2.1 600000 300000 ⟨"m", 600000, 2⟩ (by decide),
   c4_win_rate_amended.2.2.2.2.1 600000 300000 "w" wThird (by decide)⟩

/-- C5: the global win rate is taken over the summed wins and summed token
counts of all wallets (0 when the total count is 0, built into `pctRound`) —
not by averaging per-wallet rates.  On wallets of 1/2 and 2/2 it is
`3/4 = 75%`; on wallets of 1/1 and 0/3 it is `25`, while the average of the
per-wallet rates would be `50`. -/
theorem c5_global_rate :
    (∀ (now winMs : Nat) (ws : List (String × WalletInfo)),
      (walletsStats now winMs ws).1.wins =
        (ws.map (fun p => countWins now winMs p.2.trades)).sum ∧
      (walletsStats now winMs ws).1.tokens =
        (ws.map (fun p => p.2.trades.length)).sum ∧
      (walletsStats now winMs ws).1.winRate =
        pctRound ((ws.map (fun p => countWins now winMs p.2.trades)).sum)
          ((ws.map (fun p => p.2.trades.length)).sum)) ∧
    (walletsStats 600000 300000 [("a", wHalf), ("b", wFull)]).1.winRate = 75 ∧
    ((walletsStats 600000 300000 [("c", wOne), ("d", wZero)]).1.winRate = 25 ∧
      ((walletsStats 600000 300000 [("c", wOne), ("d", wZero)]).2.map
          (fun d => d.winRate)).sum / 2 = 50 ∧
      (25 : Nat) ≠ 50) := by
  refine ⟨?_, by decide, by decide, by decide, by decide⟩
  intro now winMs ws
  refine ⟨?_, ?_, ?_⟩ <;>
    simp [walletsStats, walletStat, List.map_map, Function.comp_def]

/-- C9 counterexample: a flat key-to-value object has 1 key, so the claim
assigns it count 1 at every site; the DexPairs/DexSearch counting used by
`pollOnce` gives it count 0 (only the v2 `Object.keys` site counts keys).
There is no single per-response count rule. -/
theorem c9_counterexample :
    pairsCountOf (JVal.obj [("a", JVal.str "b")]) = 0 ∧
    v2RaydiumCount (JVal.obj [("a", JVal.str "b")]) = 1 ∧
    (0 : Nat) ≠ 1 := by
  refine ⟨rfl, rfl, by decide⟩

theorem optLenOrZero_arr (xs : List JVal) :
    optLenOrZero (some (JVal.arr xs)) = xs.length := by
  by_cases h0 : xs.length = 0
  · simp [optLenOrZero, jsLenOrZero, jsLengthProp, jsTruthy, countNat, h0]
  · have hne : (((xs.length : Int) != 0) : Bool) = true := by
      simp only [bne_iff_ne, ne_eq, Nat.cast_eq_zero]
      exact h0
    simp [optLenOrZero, jsLenOrZero, jsLengthProp, jsTruthy, hne, countNat]

/-- C9 (amended): each fetch site derives its count from the one shape it
expects, never erroring.  The v2 site counts the keys of a (flat) object.
The DexPairs/DexSearch site counts the `pairs` array and yields 0 for any
body without one (including flat objects).  The BirdEye site evaluates
`data?.length || 0`: an array counts its elements; a value with no `length`
property (null, booleans, numbers, objects without a `length` field) gives 0;
a defined, truthy length read — a non-empty string's character count, or an
object's own `length` field of any kind — propagates as that exact value
(`birdLenVal`); a falsy length read gives 0.  The poller consumes the ℕ
reading of that value: for a positive integer `length` field `n` the site
count is `n`. -/
theorem c9_shape_counts_amended :
    (∀ fs : List (String × JVal), v2RaydiumCount (JVal.obj fs) = fs.length) ∧
    (∀ (v : JVal) (xs : List JVal), jsGet v "pairs" = some (JVal.arr xs) →
      pairsCountOf v = xs.length) ∧
    (∀ v : JVal, (∀ xs : List JVal, jsGet v "pairs" ≠ some (JVal.arr xs)) →
      pairsCountOf v = 0) ∧
    (∀ (v : JVal) (xs : List JVal), jsGet v "data" = some (JVal.arr xs) →
      birdCountOf v = xs.length) ∧
    (∀ v : JVal, jsGet v "data" = none →
      birdCountOf v = 0 ∧ birdLenVal v = JVal.num 0) ∧
    (∀ (v w : JVal), jsGet v "data" = some w → jsLengthProp w = none →
      birdCountOf v = 0 ∧ birdLenVal v = JVal.num 0) ∧
    (∀ (v w lv : JVal), jsGet v "data" = some w → jsLengthProp w = some lv →
      jsTruthy lv = true → birdLenVal v = lv) ∧
    (∀ (v w lv : JVal), jsGet v "data" = some w → jsLengthProp w = some lv →
      jsTruthy lv = false → birdCountOf v = 0 ∧ birdLenVal v = JVal.num 0) ∧
    (∀ (v : JVal) (fs : List (String × JVal)) (n : Int),
      jsGet v "data" = some (JVal.obj fs) →
      getField fs "length" = some (JVal.num n) → 0 < n →
      (birdCountOf v : Int) = n ∧ birdLenVal v = JVal.num n) := by
  refine ⟨?_, ?_, ?_, ?_, ?_, ?_, ?_, ?_, ?_⟩
  · intro fs
    rfl
  · intro v xs h
    unfold pairsCountOf
    rw [h]
  · intro v h
    unfold pairsCountOf
    cases hg : jsGet v "pairs" with
    | none => rfl
    | some w =>
      cases w with
      | arr xs => exact absurd hg (h xs)
      | null => rfl
      | bool b => rfl
      | num n => rfl
      | str s => rfl
      | obj fs => rfl
  · intro v xs h
    unfold birdCountOf
    rw [h]
    exact optLenOrZero_arr xs
  · intro v h
    unfold birdCountOf birdLenVal
    rw [h]
    exact ⟨rfl, rfl⟩
  · intro v w h1 h2
    unfold birdCountOf birdLenVal optLenOrZero
    rw [h1]
    simp [jsLenOrZero, h2, countNat]
  · intro v w lv h1 h2 h3
    unfold birdLenVal
    rw [h1]
    simp [jsLenOrZero, h2, h3]
  · intro v w lv h1 h2 h3
    unfold birdCountOf birdLenVal optLenOrZero
    rw [h1]
    simp [jsLenOrZero, h2, h3, countNat]
  · intro v fs n h1 h2 h3
    have hne : ((n != 0) : Bool) = true := by
      simp only [bne_iff_ne, ne_eq]
      omega
    constructor
    · unfold birdCountOf optLenOrZero
      rw [h1]
      simp [jsLenOrZero, jsLengthProp, h2, jsTruthy, hne, countNat,
        Int.toNat_of_nonneg (by omega : (0 : Int) ≤ n)]
    · unfold birdLenVal
      rw [h1]
      simp [jsLenOrZero, jsLengthProp, h2, jsTruthy, hne]

/-- Witness for C9 (amended) at concrete bodies of each shape, including the
object-valued `data` with its own `length` field, where the site count is the
field's value. -/
theorem c9_shape_counts_amended_witness :
    pairsCountOf (JVal.obj [("pairs", JVal.arr [JVal.null, JVal.null])]) = 2 ∧
    birdCountOf (JVal.obj [("data", JVal.arr [JVal.null])]) = 1 ∧
    pairsCountOf (JVal.num 7) = 0 ∧
    birdCountOf (JVal.obj [("data", JVal.num 3)]) = 0 ∧
    ((birdCountOf (JVal.obj [("data", JVal.obj [("length", JVal.num 7)])]) : Int) = 7 ∧
      birdLenVal (JVal.obj [("data", JVal.obj [("length", JVal.num 7)])]) = JVal.num 7) ∧
    birdLenVal (JVal.obj [("data", JVal.obj [("length", JVal.str "abc")])]) =
      JVal.str "abc" ∧
    (birdCountOf (JVal.obj [("data", JVal.obj [("length", JVal.num 0)])]) = 0 ∧
      birdLenVal (JVal.obj [("data", JVal.obj [("length", JVal.num 0)])]) = JVal.num 0) :=
  ⟨c9_shape_counts_amended.2.1 (JVal.obj [("pairs", JVal.arr [JVal.null, JVal.null])])
      [JVal.null, JVal.null] rfl,
   c9_shape_counts_amended.2.2.2.1 (JVal.obj [("data", JVal.arr [JVal.null])])
      [JVal.null] rfl,
   c9_shape_counts_amended.2.2.1 (JVal.num 7) (fun _xs h => nomatch h),
   (c9_shape_counts_amended.2.2.2.2.2.1 (JVal.obj [("data", JVal.num 3)]) (JVal.num 3)
      rfl rfl).1,
   c9_shape_counts_amended.2.2.2.2.2.2.2.2 (JVal.obj [("data", JVal.obj [("length", JVal.num 7)])])
      [("length", JVal.num 7)] 7 rfl rfl (by decide),
   c9_shape_counts_amended.2.2.2.2.2.2.1
      (JVal.obj [("data", JVal.obj [("length", JVal.str "abc")])])
      (JVal.obj [("length", JVal.str "abc")]) (JVal.str "abc") rfl rfl (by decide),
   c9_shape_counts_amended.2.2.2.2.2.2.2.1
      (JVal.obj [("data", JVal.obj [("length", JVal.num 0)])])
      (JVal.obj [("length", JVal.num 0)]) (JVal.num 0) rfl rfl (by decide)⟩

/-!  Lemmas on the trades map for swap ingestion. -/

theorem tlookup_append_some {tr : List (String × TradeRecord)} {m : String}
    {e : TradeRecord} (h : tlookup tr m = some e) (l : List (String × TradeRecord)) :
    tlookup (tr ++ l) m = some e := by
  induction tr with
  | nil => simp [tlookup] at h
  | cons p rest ih =>
    obtain ⟨k, t⟩ := p
    by_cases hk : k = m
    · simp only [tlookup, if_pos hk] at h
      simp only [List.cons_append, tlookup, if_pos hk]
      exact h
    · simp only [tlookup, if_neg hk] at h
      simp only [List.cons_append, tlookup, if_neg hk]
      exact ih h

theorem tlookup_append_single_other {m' m : String} (hne : ¬ m' = m) (t0 : TradeRecord) :
    ∀ tr : List (String × TradeRecord), tlookup (tr ++ [(m', t0)]) m = tlookup tr m := by
  intro tr
  induction tr with
  | nil => simp [tlookup, hne]
  | cons p rest ih =>
    obtain ⟨k, t⟩ := p
    by_cases hk : k = m
    · simp only [List.cons_append, tlookup, if_pos hk]
    · simp only [List.cons_append, tlookup, if_neg hk]
      exact ih

theorem tbump_lookup_self {tr : List (String × TradeRecord)} {m : String}
    {e : TradeRecord} (h : tlookup tr m = some e) :
    tlookup (tbump tr m) m = some { e with swapCount := e.swapCount + 1 } := by
  induction tr with
  | nil => simp [tlookup] at h
  | cons p rest ih =>
    obtain ⟨k, t⟩ := p
    by_cases hk : k = m
    · simp only [tlookup, if_pos hk, Option.some.injEq] at h
      simp only [tbump, if_pos hk, tlookup, h]
    · simp only [tlookup, if_neg hk] at h
      simp only [tbump, if_neg hk, tlookup]
      exact ih h

theorem tbump_lookup_other {m' m : String} (hne : ¬ m' = m) :
    ∀ tr : List (String × TradeRecord), tlookup (tbump tr m') m = tlookup tr m := by
  intro tr
  induction tr with
  | nil => rfl
  | cons p rest ih =>
    obtain ⟨k, t⟩ := p
    by_cases hk : k = m'
    · have hkm : ¬ k = m := by rw [hk]; exact hne
      simp only [tbump, if_pos hk, tlookup, if_neg hkm]
    · by_cases hkm : k = m
      · simp only [tbump, if_neg hk, tlookup, if_pos hkm]
      · simp only [tbump, if_neg hk, tlookup, if_neg hkm]
        exact ih

theorem applyMint_lookup_self (ts : Nat) {tr : List (String × TradeRecord)}
    {m : String} {e : TradeRecord} (h : tlookup tr m = some e) :
    tlookup (applyMint ts tr m) m = some { e with swapCount := e.swapCount + 1 } := by
  unfold applyMint
  rw [h]
  exact tbump_lookup_self h

theorem applyMint_lookup_other (ts : Nat) {m' m : String} (hne : ¬ m' = m)
    (tr : List (String × TradeRecord)) :
    tlookup (applyMint ts tr m') m = tlookup tr m := by
  unfold applyMint
  cases hl : tlookup tr m' with
  | some t => exact tbump_lookup_other hne tr
  | none => exact tlookup_append_single_other hne _ tr

theorem mem_foldl_insertMint (m : String) (l : List String) :
    ∀ acc, m ∈ l.foldl insertMint acc ↔ m ∈ acc ∨ m ∈ l := by
  induction l with
  | nil => intro acc; simp
  | cons a l ih =>
    intro acc
    simp only [List.foldl_cons]
    rw [ih]
    unfold insertMint
    by_cases ha : a ∈ acc
    · rw [if_pos ha]
      simp only [List.mem_cons]
      constructor
      · rintro (h | h)
        · exact Or.inl h
        · exact Or.inr (Or.inr h)
      · rintro (h | h | h)
        · exact Or.inl h
        · exact Or.inl (h ▸ ha)
        · exact Or.inr h
    · rw [if_neg ha]
      simp only [List.mem_append, List.mem_singleton, List.mem_cons]
      tauto

theorem nodup_foldl_insertMint (l : List String) :
    ∀ acc : List String, acc.Nodup → (l.foldl insertMint acc).Nodup := by
  induction l with
  | nil => intro acc h; exact h
  | cons a l ih =>
    intro acc h
    simp only [List.foldl_cons]
    apply ih
    unfold insertMint
    by_cases ha : a ∈ acc
    · rw [if_pos ha]; exact h
    · rw [if_neg ha]
      simp [List.nodup_append, h, ha]

theorem count_dedupMints (m : String) (l : List String) :
    (dedupMints l).count m = if m ∈ l then 1 else 0 := by
  by_cases hm : m ∈ l
  · rw [if_pos hm]
    exact List.count_eq_one_of_mem (nodup_foldl_insertMint l [] (by simp))
      ((mem_foldl_insertMint m l []).mpr (Or.inr hm))
  · rw [if_neg hm]
    refine List.count_eq_zero.mpr ?_
    intro hc
    exact hm (((mem_foldl_insertMint m l []).mp hc).resolve_left (by simp))

theorem foldl_applyMint_lookup (ts : Nat) (ms : List String) :
    ∀ (tr : List (String × TradeRecord)) (m : String) (e : TradeRecord),
      tlookup tr m = some e →
      tlookup (ms.foldl (applyMint ts) tr) m =
        some { e with swapCount := e.swapCount + ms.count m } := by
  induction ms with
  | nil =>
    intro tr m e h
    simpa using h
  | cons m' ms ih =>
    intro tr m e h
    simp only [List.foldl_cons]
    by_cases hm : m' = m
    · have h1 : tlookup (applyMint ts tr m') m =
          some { e with swapCount := e.swapCount + 1 } := by
        rw [hm]
        exact applyMint_lookup_self ts h
      have h2 := ih _ m _ h1
      rw [h2, hm, List.count_cons_self]
      dsimp only
      have h3 : e.swapCount + 1 + ms.count m = e.swapCount + (ms.count m + 1) := by omega
      simp only [h3]
    · have h1 : tlookup (applyMint ts tr m') m = some e := by
        rw [applyMint_lookup_other ts hm tr]
        exact h
      have h2 := ih _ m _ h1
      rw [h2, List.count_cons_of_ne]
      intro hc
      have hmm : m = m' := by simpa using hc
      exact hm hmm.symm

theorem applyTx_lookup (tx : Tx) {tr : List (String × TradeRecord)} {m : String}
    {e : TradeRecord} (h : tlookup tr m = some e) :
    tlookup (applyTx tr tx) m =
      some { e with swapCount := e.swapCount + txOcc m tx } := by
  unfold applyTx txOcc
  by_cases hs : isSwapTx tx
  · simp only [hs, if_true]
    have h2 := foldl_applyMint_lookup tx.timestamp (dedupMints tx.tokenTransfers) tr m e h
    rw [h2, count_dedupMints]
  · simp only [hs, Bool.false_eq_true, if_false]
    simpa using h

/-- C10: swap ingestion is not idempotent at the event level: for a mint the
wallet already tracks with record `e`, re-processing a transaction window adds
one to `swapCount` for every swap-classified transaction in the window whose
token transfers mention the mint (no per-transaction deduplication), while
`firstSeen` (and the mint) stay exactly as first recorded. -/
theorem c10_reingestion_not_idempotent (trades : List (String × TradeRecord))
    (txs : List Tx) (m : String) (e : TradeRecord)
    (h : tlookup trades m = some e) :
    tlookup (fetchWalletSwaps trades txs) m =
      some { e with swapCount := e.swapCount + occCount m txs } := by
  induction txs generalizing trades e with
  | nil => simpa using h
  | cons tx txs ih =>
    have h1 := applyTx_lookup tx h
    have h2 := ih _ _ h1
    unfold fetchWalletSwaps at h2 ⊢
    simp only [List.foldl_cons]
    rw [h2]
    dsimp only
    rw [show occCount m (tx :: txs) = txOcc m tx + occCount m txs from by
      simp [occCount], ← Nat.add_assoc]

/-- Witness for C10: a wallet already tracking `mintX` (1 swap, firstSeen
5000 ms) sees the same window again — one swap-classified transaction naming
`mintX` and one non-swap transaction — and ends with `swapCount = 2`,
`firstSeen` unchanged. -/
theorem c10_reingestion_not_idempotent_witness :
    tlookup [("mintX", ⟨"mintX", 5000, 1⟩)] "mintX" = some ⟨"mintX", 5000, 1⟩ ∧
    tlookup
      (fetchWalletSwaps [("mintX", ⟨"mintX", 5000, 1⟩)]
        [⟨"Raydium Swap", "", 7, ["mintX"]⟩, ⟨"transfer", "", 8, ["mintX"]⟩])
      "mintX" = some ⟨"mintX", 5000, 2⟩ :=
  ⟨by decide,
   c10_reingestion_not_idempotent [("mintX", ⟨"mintX", 5000, 1⟩)]
     [⟨"Raydium Swap", "", 7, ["mintX"]⟩, ⟨"transfer", "", 8, ["mintX"]⟩]
     "mintX" ⟨"mintX", 5000, 1⟩ (by decide)⟩
